import Mathlib

/-!
Shallow embedding of src/security.js, the Security module of the repository
Pyknic/security.js.

The file declares the module twice; each copy guards itself with the check
typeof window.Security === "undefined", so only the first copy (file lines
23-425) takes effect.  The definitions below embed that first copy; the
module-installation guards of both copies are embedded at the end for the
idempotence claim.

Modelling conventions:
- JavaScript values that can reach the session fields are embedded as JSVal
  (null, undefined, booleans, integer numbers and strings suffice for this
  module).
- localStorage and sessionStorage hold only strings: the DOM Storage named
  setter converts every assigned value to a DOMString, so the statement
  localStorage.user = null stores the STRING "null".  A scope field is an
  Option String where none means the key is absent, in which case a read
  yields undefined and typeof yields "undefined".
- Host primitives used by the module are embedded executably: btoa as base64
  over the bytes of the string (every use here is ASCII), encodeURI with the
  standard unescaped character set.  JSON.parse is an abstract parameter of
  the response handler, since the dispatch claims hold for every parse
  result.
- Thrown exceptions become Except String; methods that mutate this and can
  throw return the state together with the outcome, so that a mutation that
  happened before the throw is preserved.
- A method that executes return this is recorded as RetVal.self; any other
  returned value, including the implicit undefined of a method with no
  return statement, is RetVal.js v.
- Caller supplied callbacks are identified by name (JSFn.named); the default
  handler function() {} is JSFn.noop.
-/

/-- JavaScript values reaching the session fields and the helper functions
of the module. -/
inductive JSVal where
  | null
  | jsUndefined
  | bool (b : Bool)
  | num (n : Int)
  | str (s : String)
deriving DecidableEq, Repr

/-- String conversion JavaScript applies when a value is concatenated into a
string or assigned into a DOM Storage field. -/
def toJSString : JSVal → String
  | .null => "null"
  | .jsUndefined => "undefined"
  | .bool true => "true"
  | .bool false => "false"
  | .num n => toString n
  | .str s => s

/-- One persisted scope (localStorage or sessionStorage) restricted to the
two keys the module uses.  DOM Storage values are always strings; none means
the key is absent. -/
structure StorageScope where
  user : Option String
  pass : Option String
deriving DecidableEq, Repr

/-- Scope with neither key present. -/
def emptyScope : StorageScope := ⟨none, none⟩

/-- Reading a storage field from script: an absent key reads as undefined, a
present key reads as its string value. -/
def storageRead : Option String → JSVal
  | some s => .str s
  | none => .jsUndefined

/-- Result of the typeof operator on a storage field, as tested by start. -/
def typeofStored : Option String → String
  | some _ => "string"
  | none => "undefined"

/-- Assigning a value to a DOM Storage field stores its DOMString
conversion; in particular assigning null stores the string "null". -/
def storageWrite (v : JSVal) : Option String := some (toJSString v)

/-- State of the Security singleton: the two member variables user and pass
together with the two persisted scopes it reads and writes. -/
structure SecurityState where
  user : JSVal
  pass : JSVal
  localStorage : StorageScope
  sessionStorage : StorageScope
deriving DecidableEq, Repr

/-- Member variables as declared in the object literal: user and pass start
as null. -/
def initialSecurity (ls ss : StorageScope) : SecurityState :=
  { user := .null, pass := .null, localStorage := ls, sessionStorage := ss }

/-- Value returned by a public method: the Security handle itself (return
this) or a plain JavaScript value (undefined when there is no return
statement). -/
inductive RetVal where
  | self
  | js (v : JSVal)
deriving DecidableEq, Repr

/-- Internal helper expectString: returns the argument when it is a string,
otherwise throws. -/
def expectString : JSVal → Except String String
  | .str s => .ok s
  | v => .error ("Specified value \"" ++ toJSString v ++ "\" is not a string.")

/-- Internal helper expectNumber: returns the argument when it is a number,
otherwise throws. -/
def expectNumber : JSVal → Except String Int
  | .num n => .ok n
  | v => .error ("Specified value \"" ++ toJSString v ++ "\" is not a number.")

/-- Callback functions, identified by a caller chosen name; noop is the
default handler function() {}. -/
inductive JSFn where
  | noop
  | named (name : String)
deriving DecidableEq, Repr

/-- Possible value of a handler slot of a configuration object: a function,
undefined (the key is absent), or some other value whose typeof is
recorded. -/
inductive FnOrUndef where
  | jsUndefined
  | fn (f : JSFn)
  | nonfn (tname : String)
deriving DecidableEq, Repr

/-- Internal helper functionOr: the first argument when it is a function,
the fallback when the first is undefined, otherwise a throw. -/
def functionOr (f : FnOrUndef) (otherwise : JSFn) : Except String JSFn :=
  match f with
  | .fn g => .ok g
  | .jsUndefined => .ok otherwise
  | .nonfn t => .error ("Expected function, but got \"" ++ t ++ "\".")

/-- Method getUsername: returns this.user. -/
def getUsername (st : SecurityState) : SecurityState × RetVal := (st, .js st.user)

/-- Method getPassword: returns this.pass. -/
def getPassword (st : SecurityState) : SecurityState × RetVal := (st, .js st.pass)

/-- Boolean computed by isLoggedIn: this.user !== null and
this.pass !== null. -/
def isLoggedInB (st : SecurityState) : Bool :=
  decide (st.user ≠ JSVal.null) && decide (st.pass ≠ JSVal.null)

/-- Method isLoggedIn: returns the boolean. -/
def isLoggedIn (st : SecurityState) : SecurityState × RetVal :=
  (st, .js (.bool (isLoggedInB st)))

/-- Method login: sets this.user and this.pass, then writes the scope
selected by remember, and returns this.  No other effect takes place. -/
def login (st : SecurityState) (user pass : JSVal) (remember : Bool) :
    SecurityState × RetVal :=
  let st1 := { st with user := user, pass := pass }
  if remember then
    ({ st1 with
        localStorage := { user := storageWrite user, pass := storageWrite pass } },
     .self)
  else
    ({ st1 with
        sessionStorage := { user := storageWrite user, pass := storageWrite pass } },
     .self)

/-- Method loadStored: this.user = expectString(localStorage.user) and then
this.pass = expectString(localStorage.pass); a throw after the first
assignment leaves that assignment in place. -/
def loadStored (st : SecurityState) : SecurityState × Except String RetVal :=
  match expectString (storageRead st.localStorage.user) with
  | .error e => (st, .error e)
  | .ok u =>
    let st1 := { st with user := JSVal.str u }
    match expectString (storageRead st1.localStorage.pass) with
    | .error e => (st1, .error e)
    | .ok p => ({ st1 with pass := JSVal.str p }, .ok .self)

/-- Method loadSession: like loadStored but from sessionStorage. -/
def loadSession (st : SecurityState) : SecurityState × Except String RetVal :=
  match expectString (storageRead st.sessionStorage.user) with
  | .error e => (st, .error e)
  | .ok u =>
    let st1 := { st with user := JSVal.str u }
    match expectString (storageRead st1.sessionStorage.pass) with
    | .error e => (st1, .error e)
    | .ok p => ({ st1 with pass := JSVal.str p }, .ok .self)

/-- Method start: hydrates from localStorage when both its fields have
typeof string, else from sessionStorage under the same test, else returns
this unchanged. -/
def start (st : SecurityState) : SecurityState × Except String RetVal :=
  if typeofStored st.localStorage.user = "string"
      ∧ typeofStored st.localStorage.pass = "string" then
    loadStored st
  else if typeofStored st.sessionStorage.user = "string"
      ∧ typeofStored st.sessionStorage.pass = "string" then
    loadSession st
  else
    (st, .ok .self)

/-- Method logout: assigns null into all four storage slots (stored as the
string "null" by the DOM Storage setter) and returns this.  The member
variables this.user and this.pass are not assigned. -/
def logout (st : SecurityState) : SecurityState × RetVal :=
  ({ st with
      localStorage := { user := storageWrite .null, pass := storageWrite .null },
      sessionStorage := { user := storageWrite .null, pass := storageWrite .null } },
   .self)

/-- Characters the host function encodeURI leaves unescaped: letters, digits
and the characters ; , / ? : @ & = + $ - _ . ! ~ * quote ( ) #. -/
def encodeURIUnescaped (c : Char) : Bool :=
  c.isAlpha || c.isDigit ||
  [Char.ofNat 59, Char.ofNat 44, Char.ofNat 47, Char.ofNat 63, Char.ofNat 58,
   Char.ofNat 64, Char.ofNat 38, Char.ofNat 61, Char.ofNat 43, Char.ofNat 36,
   Char.ofNat 45, Char.ofNat 95, Char.ofNat 46, Char.ofNat 33, Char.ofNat 126,
   Char.ofNat 42, Char.ofNat 39, Char.ofNat 40, Char.ofNat 41,
   Char.ofNat 35].contains c

/-- Uppercase hexadecimal digit. -/
def hexDigit (n : Nat) : Char :=
  if n < 10 then Char.ofNat (48 + n) else Char.ofNat (55 + n)

/-- Percent escape of one byte. -/
def percentEscape (b : Nat) : String :=
  String.mk [Char.ofNat 37, hexDigit (b / 16), hexDigit (b % 16)]

/-- Byte by byte body of encodeURI: ASCII bytes in the unescaped set pass
through, every other byte is percent escaped. -/
def encodeURIBytes : List Nat → String
  | [] => ""
  | b :: rest =>
    (if b < 128 && encodeURIUnescaped (Char.ofNat b) then String.mk [Char.ofNat b]
     else percentEscape b) ++ encodeURIBytes rest

/-- Host function encodeURI, applied after the usual string conversion of
the argument; every use in this module is on ASCII strings, whose code
points coincide with their UTF-8 bytes. -/
def encodeURI (v : JSVal) : String :=
  encodeURIBytes ((toJSString v).data.map Char.toNat)

/-- Alphabet of standard base64. -/
def base64Chars : List Char :=
  "ABCDEFGHIJKLMNOPQRSTUVWXYZabcdefghijklmnopqrstuvwxyz0123456789+/".toList

/-- Character of one sextet. -/
def b64Char (n : Nat) : Char := base64Chars.getD n (Char.ofNat 61)

/-- Base64 of a byte list, with padding; Char.ofNat 61 is the padding
character. -/
def base64Encode : List Nat → String
  | [] => ""
  | [a] =>
    String.mk [b64Char (a / 4), b64Char (a % 4 * 16), Char.ofNat 61, Char.ofNat 61]
  | [a, b] =>
    String.mk [b64Char (a / 4), b64Char (a % 4 * 16 + b / 16),
      b64Char (b % 16 * 4), Char.ofNat 61]
  | a :: b :: c :: rest =>
    String.mk [b64Char (a / 4), b64Char (a % 4 * 16 + b / 16),
      b64Char (b % 16 * 4 + c / 64), b64Char (c % 64)] ++ base64Encode rest

/-- Host function btoa: base64 of the code points of the string (btoa is
defined for code points below 256; every use in this module is ASCII). -/
def btoa (s : String) : String :=
  base64Encode (s.data.map Char.toNat)

/-- Host JSON.stringify restricted to the primitive values representable as
JSVal; undefined serializes to undefined (none).  String content used in
this development needs no escaping. -/
def jsonStringify : JSVal → Option String
  | .jsUndefined => none
  | .null => some "null"
  | .bool b => some (toJSString (.bool b))
  | .num n => some (toString n)
  | .str s => some ("\"" ++ s ++ "\"")

/-- Property access config.data when config is a primitive string: strings
have no data property, so the read yields undefined. -/
def stringDotData (_s : String) : JSVal := JSVal.jsUndefined

/-- Shape of the config argument of send, split by the typeof tests of the
source: undefined, a function, a string, an object with a data slot and two
handler slots, the value null (whose typeof is also object, but reading a
property of it throws), or any other value. -/
inductive SendConfig where
  | jsUndefined
  | fn (f : JSFn)
  | str (s : String)
  | obj (data : JSVal) (onSuccess onFailure : FnOrUndef)
  | nullv
  | other (tname : String)
deriving DecidableEq, Repr

/-- Request as handed to XMLHttpRequest: open arguments, headers set,
withCredentials flag and the body passed to its send method (none when
xhttp.send is called with no body). -/
structure Request where
  method : String
  url : String
  async : Bool
  contentType : Option String
  authorization : String
  withCredentials : Bool
  body : Option String
deriving DecidableEq, Repr

/-- Handlers captured by the onreadystatechange closure of one send call. -/
structure DispatchCtx where
  onSuccess : JSFn
  onFailure : JSFn
deriving DecidableEq, Repr

/-- Config normalization sequence of send: Content-Type header (none when no
setRequestHeader call happens), resolved success and failure handlers, and
the value of the data variable after the branch. -/
def sendBranch (config : SendConfig) :
    Except String (Option String × JSFn × JSFn × JSVal) :=
  match config with
  | .jsUndefined => .ok (none, .noop, .noop, .str "")
  | .fn f => .ok (none, f, f, .str "")
  | .str s =>
    -- data = encodeURI(config.data): config.data on a primitive string is
    -- undefined, so the body is the string "undefined" whatever s was
    .ok (some "application/x-www-form-urlencoded", .noop, .noop,
         .str (encodeURI (stringDotData s)))
  | .obj d oS oF =>
    match functionOr oS .noop with
    | .error e => .error e
    | .ok s =>
      match functionOr oF .noop with
      | .error e => .error e
      | .ok f =>
        .ok (some "application/json", s, f,
             match jsonStringify d with
             | some j => JSVal.str j
             | none => JSVal.jsUndefined)
  | .nullv => .error "TypeError: cannot read properties of null"
  | .other _ =>
    .error "Unexpected \"config\" type. Should be either an object or a function."

/-- Body handed to xhttp.send: no body when data is the empty string (the
initial value) or undefined, otherwise the string. -/
def sendBody : JSVal → Option String
  | .str "" => none
  | .str s => some s
  | _ => none

/-- Method send: validates the method string, normalizes the config, and
dispatches the request.  The result is the request together with the
captured handlers and the returned value: send has no return statement, so
it returns undefined.  A thrown exception is an error and no request is
dispatched. -/
def send (st : SecurityState) (method : JSVal) (url : String)
    (config : SendConfig) : Except String (Request × DispatchCtx × RetVal) :=
  match expectString method with
  | .error e => .error e
  | .ok m =>
    match sendBranch config with
    | .error e => .error e
    | .ok (ct, onSuccess, onFailure, data) =>
      .ok ({ method := m, url := url, async := true, contentType := ct,
             authorization :=
               "Basic " ++ btoa (toJSString st.user ++ ":" ++ toJSString st.pass),
             withCredentials := true,
             body := sendBody data },
           { onSuccess := onSuccess, onFailure := onFailure }, .js .jsUndefined)

/-- Method post: return this.send(POST, url, config). -/
def post (st : SecurityState) (url : String) (config : SendConfig) :
    Except String (Request × DispatchCtx × RetVal) :=
  send st (.str "POST") url config

/-- Method put: return this.send(PUT, url, config). -/
def put (st : SecurityState) (url : String) (config : SendConfig) :
    Except String (Request × DispatchCtx × RetVal) :=
  send st (.str "PUT") url config

/-- Method get: return this.send(GET, url, config). -/
def get (st : SecurityState) (url : String) (config : SendConfig) :
    Except String (Request × DispatchCtx × RetVal) :=
  send st (.str "GET") url config

/-- Method delete: return this.send(DELETE, url, config). -/
def delete (st : SecurityState) (url : String) (config : SendConfig) :
    Except String (Request × DispatchCtx × RetVal) :=
  send st (.str "DELETE") url config

/-- Method options: return this.send(OPTIONS, url, config). -/
def options (st : SecurityState) (url : String) (config : SendConfig) :
    Except String (Request × DispatchCtx × RetVal) :=
  send st (.str "OPTIONS") url config

/-- Body of the onreadystatechange closure: when the readyState is 4, parse
the response text (a parse failure propagates), check the status is a
number, and invoke the success handler for the statuses 200, 201, 202, 203,
204 and the failure handler for every other status, each applied to the
parsed body and the status.  JSON.parse is the abstract parameter parse. -/
def onReadyStateChange {B : Type} (ctx : DispatchCtx)
    (parse : String → Except String B) (readyState : Nat)
    (responseText : String) (status : JSVal) :
    Except String (Option (JSFn × B × Int)) :=
  if readyState = 4 then
    match parse responseText with
    | .error e => .error e
    | .ok res =>
      match expectNumber status with
      | .error e => .error e
      | .ok s =>
        if s = 200 ∨ s = 201 ∨ s = 202 ∨ s = 203 ∨ s = 204 then
          .ok (some (ctx.onSuccess, res, s))
        else
          .ok (some (ctx.onFailure, res, s))
  else
    .ok none

/-- Which copy of the module a window.Security definition came from: the
first copy validates in loadStored and loadSession via expectString, the
second copies the storage fields without validation. -/
inductive ModuleCopy where
  | first
  | second
deriving DecidableEq, Repr

/-- Guarded installer of the first copy of the module (file lines 23-425):
window.Security is assigned only when it is undefined, otherwise a warning
is logged and nothing changes. -/
def installFirst : Option ModuleCopy → Option ModuleCopy
  | none => some .first
  | some d => some d

/-- Guarded installer of the second copy of the module (file lines
448-647). -/
def installSecond : Option ModuleCopy → Option ModuleCopy
  | none => some .second
  | some d => some d

/-- Evaluating the whole file runs the first installer, then the second. -/
def evalModuleFile (w : Option ModuleCopy) : Option ModuleCopy :=
  installSecond (installFirst w)

/-- Session state after login("alice", "secret", remember = false) from a
fresh state with empty scopes. -/
def c3LoggedIn : SecurityState :=
  (login (initialSecurity emptyScope emptyScope)
    (.str "alice") (.str "secret") false).1

/-- Session state after the subsequent logout(). -/
def c3AfterLogout : SecurityState := (logout c3LoggedIn).1

/-- C1: the claim asserts that login derives a salted one-way hash of the
password before any transmission or storage and never commits the
plaintext.  The code commits the plaintext: after the call
login("alice", "hunter2", remember = false), the session password field and
the ephemeral scope both hold the plaintext "hunter2"; no hashing occurs
anywhere in login, and login performs no request at all. -/
theorem c1_login_commits_plaintext :
    ((login (initialSecurity emptyScope emptyScope)
        (.str "alice") (.str "hunter2") false).1.pass = JSVal.str "hunter2")
    ∧ ((login (initialSecurity emptyScope emptyScope)
        (.str "alice") (.str "hunter2") false).1.sessionStorage.pass
          = some "hunter2") := by decide

/-- C2 counterexample: the claim says the session and the persisted scope
are committed if and only if a response to the login request has HTTP
status exactly 200.  The login method of the code performs no request and
consults no status; evaluated as a pure state transform it has already
committed the credentials into the session and the ephemeral scope at call
time, starting from a logged out state in which no response exists. -/
theorem c2_counterexample :
    ((login (initialSecurity emptyScope emptyScope)
        (.str "alice") (.str "pw") false).1.user = JSVal.str "alice")
    ∧ ((login (initialSecurity emptyScope emptyScope)
        (.str "alice") (.str "pw") false).1.sessionStorage
          = ⟨some "alice", some "pw"⟩)
    ∧ (initialSecurity emptyScope emptyScope).user = JSVal.null := by decide

/-- C2 amended: login(user, pass, remember) commits unconditionally at call
time, writing the session fields and exactly the scope selected by
remember; it issues no request, takes no handlers and no HTTP status
influences the commit. -/
theorem c2_login_commits_unconditionally (st : SecurityState)
    (user pass : JSVal) (remember : Bool) :
    (login st user pass remember).1.user = user
    ∧ (login st user pass remember).1.pass = pass
    ∧ (login st user pass remember).1.localStorage
        = (if remember then ⟨storageWrite user, storageWrite pass⟩
           else st.localStorage)
    ∧ (login st user pass remember).1.sessionStorage
        = (if remember then st.sessionStorage
           else ⟨storageWrite user, storageWrite pass⟩) := by
  cases remember <;> simp [login]

/-- C3: the claim says logout clears the in-memory session (so isLoggedIn
returns false) and both scopes, and that a subsequent start yields a logged
out session.  The code never assigns this.user or this.pass in logout, so
isLoggedIn stays true, and the DOM Storage setter stores the STRING "null"
in all four slots, so a fresh start hydrates the session with the strings
"null"/"null" and reports it as logged in. -/
theorem c3_logout_leaves_logged_in :
    isLoggedInB c3AfterLogout = true
    ∧ c3AfterLogout.user = JSVal.str "alice"
    ∧ c3AfterLogout.localStorage = ⟨some "null", some "null"⟩
    ∧ c3AfterLogout.sessionStorage = ⟨some "null", some "null"⟩
    ∧ isLoggedInB (start (initialSecurity c3AfterLogout.localStorage
        c3AfterLogout.sessionStorage)).1 = true
    ∧ (start (initialSecurity c3AfterLogout.localStorage
        c3AfterLogout.sessionStorage)).1.user = JSVal.str "null" := by decide

/-- C7: login writes exactly the scope selected by remember with the
committed pair and leaves the other scope completely untouched; in
particular with remember false the durable scope is unchanged while the
ephemeral scope holds the committed pair. -/
theorem c7_login_single_scope (st : SecurityState) (u p : String) :
    ((login st (.str u) (.str p) true).1.sessionStorage = st.sessionStorage
      ∧ (login st (.str u) (.str p) true).1.localStorage = ⟨some u, some p⟩)
    ∧ ((login st (.str u) (.str p) false).1.localStorage = st.localStorage
      ∧ (login st (.str u) (.str p) false).1.sessionStorage = ⟨some u, some p⟩
      ∧ (login st (.str u) (.str p) false).1.user = JSVal.str u
      ∧ (login st (.str u) (.str p) false).1.pass = JSVal.str p) := by
  simp [login, storageWrite, toJSString]

/-- C10: window.Security is assigned only when it is undefined, so
evaluating the file installs the first copy, running the second installer
after the first never changes anything (the second copy never takes
effect), and evaluating the file again is a no-op. -/
theorem c10_module_install_idempotent :
    evalModuleFile none = some ModuleCopy.first
    ∧ (∀ d, installFirst (some d) = some d)
    ∧ (∀ d, installSecond (some d) = some d)
    ∧ (∀ w, evalModuleFile w = installFirst w)
    ∧ (∀ w, evalModuleFile (evalModuleFile w) = evalModuleFile w) := by
  refine ⟨rfl, fun d => rfl, fun d => rfl, ?_, ?_⟩ <;>
    intro w <;> cases w <;> rfl

/-- C4: for a completed response (readyState 4) whose body parses, the
handler chosen by the onreadystatechange closure is determined solely by
the status code: statuses 200, 201, 202, 203 and 204 yield the success
handler and every other status (including other 2xx codes, 3xx, 4xx, 5xx
and 0) yields the failure handler, each applied to the parsed body and the
status; two responses with the same status and different bodies select the
same handler. -/
theorem c4_status_classification {B : Type} (ctx : DispatchCtx)
    (parse : String → Except String B) (text text2 : String) (b b2 : B)
    (s : Int) (hp : parse text = .ok b) (hp2 : parse text2 = .ok b2) :
    onReadyStateChange ctx parse 4 text (.num s)
      = .ok (some ((if s = 200 ∨ s = 201 ∨ s = 202 ∨ s = 203 ∨ s = 204
            then ctx.onSuccess else ctx.onFailure), b, s))
    ∧ (onReadyStateChange ctx parse 4 text (.num s)).map (Option.map Prod.fst)
      = (onReadyStateChange ctx parse 4 text2 (.num s)).map
          (Option.map Prod.fst) := by
  constructor
  · simp only [onReadyStateChange, if_pos rfl, hp, expectNumber]
    by_cases hc : s = 200 ∨ s = 201 ∨ s = 202 ∨ s = 203 ∨ s = 204 <;> simp [hc]
  · simp only [onReadyStateChange, if_pos rfl, hp, hp2, expectNumber]
    by_cases hc : s = 200 ∨ s = 201 ∨ s = 202 ∨ s = 203 ∨ s = 204 <;>
      simp [hc, Except.map]

/-- C4 witness: a status of 404 with a parsed body routes to the failure
handler applied to the body and the status. -/
theorem c4_witness :
    onReadyStateChange (DispatchCtx.mk (.named "ok") (.named "err"))
        (fun t => .ok t) 4 "body" (.num 404)
      = .ok (some (JSFn.named "err", "body", 404)) := by
  have h := (c4_status_classification (DispatchCtx.mk (.named "ok") (.named "err"))
      (fun t => .ok t) "body" "body" "body" "body" 404 rfl rfl).1
  simpa using h

/-- C5: starting from a fresh session, start hydrates from the durable scope
when both of its fields are present (hence strings), otherwise from the
ephemeral scope under the same condition, otherwise it leaves the session
logged out; the durable scope wins whenever it is hydratable, whatever the
ephemeral scope holds. -/
theorem c5_start_hydration (ls ss : StorageScope) (lu lp : String) :
    (ls.user = some lu → ls.pass = some lp →
      (start (initialSecurity ls ss)).1
        = { user := .str lu, pass := .str lp,
            localStorage := ls, sessionStorage := ss })
    ∧ ((ls.user = none ∨ ls.pass = none) →
        ∀ su sp, ss.user = some su → ss.pass = some sp →
      (start (initialSecurity ls ss)).1
        = { user := .str su, pass := .str sp,
            localStorage := ls, sessionStorage := ss })
    ∧ ((ls.user = none ∨ ls.pass = none) →
        (ss.user = none ∨ ss.pass = none) →
      (start (initialSecurity ls ss)).1 = initialSecurity ls ss
      ∧ isLoggedInB (start (initialSecurity ls ss)).1 = false) := by
  refine ⟨?_, ?_, ?_⟩
  · intro hu hp
    simp [start, typeofStored, loadStored, storageRead, expectString,
      initialSecurity, hu, hp]
  · intro hl su sp hsu hsp
    rcases hl with h | h <;>
      simp [start, typeofStored, loadSession, storageRead, expectString,
        initialSecurity, h, hsu, hsp]
  · intro hl hs
    rcases hl with h | h <;> rcases hs with h2 | h2 <;>
      simp [start, typeofStored, loadSession, storageRead, expectString,
        initialSecurity, isLoggedInB, h, h2]

/-- C5 witness: with both scopes hydratable, start takes the durable values
and ignores the ephemeral ones. -/
theorem c5_witness :
    (start (initialSecurity ⟨some "alice", some "h1"⟩
        ⟨some "bob", some "h2"⟩)).1
      = { user := JSVal.str "alice", pass := JSVal.str "h1",
          localStorage := ⟨some "alice", some "h1"⟩,
          sessionStorage := ⟨some "bob", some "h2"⟩ } :=
  (c5_start_hydration ⟨some "alice", some "h1"⟩ ⟨some "bob", some "h2"⟩
    "alice" "h1").1 rfl rfl

/-- C6: whenever send dispatches a request at all, the Authorization header
of that request is the word Basic followed by the base64 of user:pass read
from the session state passed to send, i.e. the fields at the moment of the
call; the request record is fully built before any response handling, so
the header cannot depend on later mutations.  With both fields null the
header encodes the string null:null. -/
theorem c6_authorization_header (st : SecurityState) (method : JSVal)
    (url : String) (config : SendConfig) (req : Request) (ctx : DispatchCtx)
    (rv : RetVal) (h : send st method url config = .ok (req, ctx, rv)) :
    req.authorization
      = "Basic " ++ btoa (toJSString st.user ++ ":" ++ toJSString st.pass)
    ∧ (st.user = JSVal.null → st.pass = JSVal.null →
        req.authorization = "Basic " ++ btoa "null:null") := by
  have key : req.authorization
      = "Basic " ++ btoa (toJSString st.user ++ ":" ++ toJSString st.pass) := by
    unfold send at h
    rcases hm : expectString method with e | m
    · rw [hm] at h; exact absurd h (by simp)
    · rw [hm] at h
      rcases hb : sendBranch config with e | ⟨ct, oS, oF, data⟩
      · rw [hb] at h; exact absurd h (by simp)
      · rw [hb] at h
        simp only [Except.ok.injEq, Prod.mk.injEq] at h
        rw [← h.1]
  refine ⟨key, fun hu hp => ?_⟩
  rw [key, hu, hp]
  rfl

/-- C6 witness: a send from a logged out state carries the Authorization
header Basic bnVsbDpudWxs, the base64 of null:null. -/
theorem c6_witness :
    (Request.mk "GET" "/x" true none "Basic bnVsbDpudWxs" true none).authorization
      = "Basic " ++ btoa "null:null" :=
  (c6_authorization_header (initialSecurity emptyScope emptyScope)
      (.str "GET") "/x" .jsUndefined
      (Request.mk "GET" "/x" true none "Basic bnVsbDpudWxs" true none)
      (DispatchCtx.mk .noop .noop) (RetVal.js .jsUndefined) (by rfl)).2 rfl rfl

/-- C8: the claim says a string config s is sent as the request body with
Content-Type application/x-www-form-urlencoded.  The code computes
encodeURI(config.data), and config.data on a primitive string is undefined,
so the dispatched body is the literal string undefined, never s: here the
config string a=1&b=2 produces the body undefined. -/
theorem c8_string_config_sends_undefined :
    send (initialSecurity emptyScope emptyScope) (.str "POST") "/submit"
        (SendConfig.str "a=1&b=2")
      = .ok (⟨"POST", "/submit", true,
              some "application/x-www-form-urlencoded",
              "Basic bnVsbDpudWxs", true, some "undefined"⟩,
             ⟨.noop, .noop⟩, .js JSVal.jsUndefined) := by rfl

/-- Outcome of loadStored: the handle when both fields load, otherwise a
thrown value. -/
theorem loadStored_ret (st : SecurityState) :
    (loadStored st).2 = .ok RetVal.self
    ∨ ∃ e, (loadStored st).2 = .error e := by
  unfold loadStored
  rcases hu : expectString (storageRead st.localStorage.user) with e | u
  · exact .inr ⟨e, rfl⟩
  · rcases hp : expectString (storageRead st.localStorage.pass) with e | p
    · exact .inr ⟨e, by simp [hp]⟩
    · exact .inl (by simp [hp])

/-- Outcome of loadSession: the handle when both fields load, otherwise a
thrown value. -/
theorem loadSession_ret (st : SecurityState) :
    (loadSession st).2 = .ok RetVal.self
    ∨ ∃ e, (loadSession st).2 = .error e := by
  unfold loadSession
  rcases hu : expectString (storageRead st.sessionStorage.user) with e | u
  · exact .inr ⟨e, rfl⟩
  · rcases hp : expectString (storageRead st.sessionStorage.pass) with e | p
    · exact .inr ⟨e, by simp [hp]⟩
    · exact .inl (by simp [hp])

/-- Outcome of start: the handle, or a propagated throw from a load. -/
theorem start_ret (st : SecurityState) :
    (start st).2 = .ok RetVal.self ∨ ∃ e, (start st).2 = .error e := by
  unfold start
  split
  · exact loadStored_ret st
  · split
    · exact loadSession_ret st
    · exact .inl rfl

/-- Outcome of send: the undefined value when it does not throw. -/
theorem send_ret (st : SecurityState) (method : JSVal) (url : String)
    (config : SendConfig) :
    (send st method url config).map (fun r => r.2.2)
      = .ok (RetVal.js JSVal.jsUndefined)
    ∨ ∃ e, send st method url config = .error e := by
  unfold send
  rcases hm : expectString method with e | m
  · exact .inr ⟨e, rfl⟩
  · rcases hb : sendBranch config with e | ⟨ct, oS, oF, data⟩
    · exact .inr ⟨e, by simp [hb]⟩
    · exact .inl (by simp [hb, Except.map])

/-- C9 counterexample: the claim says every public operation returns the
service handle.  The send method has no return statement, so it (and its
wrappers) return undefined, and getUsername returns the username value, not
the handle. -/
theorem c9_counterexample :
    (send (initialSecurity emptyScope emptyScope)
        (.str "GET") "/x" SendConfig.jsUndefined).map (fun r => r.2.2)
      = .ok (RetVal.js JSVal.jsUndefined)
    ∧ RetVal.js JSVal.jsUndefined ≠ RetVal.self
    ∧ (getUsername (initialSecurity emptyScope emptyScope)).2
        = RetVal.js JSVal.null := by
  refine ⟨by rfl, by simp, rfl⟩

/-- C9 amended: start, login, loadStored, loadSession and logout return the
Security handle; getUsername, getPassword and isLoggedIn return the queried
value (username, password, login flag); send returns undefined whenever it
does not throw, and post, put, get, delete and options return exactly what
send returns. -/
theorem c9_return_values (st : SecurityState) (user pass : JSVal)
    (remember : Bool) (method : JSVal) (url : String) (config : SendConfig) :
    (getUsername st).2 = RetVal.js st.user
    ∧ (getPassword st).2 = RetVal.js st.pass
    ∧ (isLoggedIn st).2 = RetVal.js (JSVal.bool (isLoggedInB st))
    ∧ (login st user pass remember).2 = RetVal.self
    ∧ (logout st).2 = RetVal.self
    ∧ ((loadStored st).2 = .ok RetVal.self
        ∨ ∃ e, (loadStored st).2 = .error e)
    ∧ ((loadSession st).2 = .ok RetVal.self
        ∨ ∃ e, (loadSession st).2 = .error e)
    ∧ ((start st).2 = .ok RetVal.self ∨ ∃ e, (start st).2 = .error e)
    ∧ ((send st method url config).map (fun r => r.2.2)
          = .ok (RetVal.js JSVal.jsUndefined)
        ∨ ∃ e, send st method url config = .error e)
    ∧ post st url config = send st (.str "POST") url config
    ∧ put st url config = send st (.str "PUT") url config
    ∧ get st url config = send st (.str "GET") url config
    ∧ delete st url config = send st (.str "DELETE") url config
    ∧ options st url config = send st (.str "OPTIONS") url config := by
  refine ⟨rfl, rfl, rfl, ?_, rfl, loadStored_ret st, loadSession_ret st,
    start_ret st, send_ret st method url config, rfl, rfl, rfl, rfl, rfl⟩
  cases remember <;> rfl
